import Mathlib

/-!
Shallow embedding of the smart-notice-board backend (Express + Mongoose routes)
and proofs about its visibility filtering, notification fan-out, view and
acknowledgment tracking, comment threading and cascade deletion.

The definitions below are translated from the route handlers in
`backend-code/routes/notices.js`, `backend-code/routes/comments.js`,
`backend-code/routes/users.js` (unnamed part), `routes/notifications.js`
(unnamed part) and the Mongoose schemas in `backend-code/models`.

Modelling conventions:
- Mongo ObjectIds are modelled as `Nat`; timestamps as `Nat`.
- Role, category, status and priority values are kept as `String`, exactly as
  they live in the document store (the schema enum is validation only).
- A document collection is a `List` of records inside a `Store`.
- `doc.save()` after mutating a document found by `_id`, `deleteOne()` on a
  document, and `deleteMany`/`findOne` by `_id` are modelled with
  `List.map` / `List.filter` / `List.find?` keyed on the id field; Mongo
  enforces a unique index on `_id`, so theorems that need uniqueness carry an
  explicit `Nodup` hypothesis on the mapped ids.
- Token resolution and the development fallback author are external to the
  modelled core: every operation receives the already-resolved acting `User`.
- JavaScript string truthiness (`if (x)`) is modelled by `truthy` on
  `Option String` (absent and empty strings are falsy).
-/

namespace SNB

/-- ASCII-lowercased code point of a character (case folding for the
case-insensitive regex option). -/
def lowerVal (c : Char) : Nat :=
  if 65 ≤ c.toNat && c.toNat ≤ 90 then c.toNat + 32 else c.toNat

/-- Case-insensitive character equality. -/
def eqCI (a b : Char) : Bool :=
  lowerVal a == lowerVal b

/-- Leading-match test on character lists: `charsLeading hay need` is true when
`need` is a case-insensitive leading sub-list of `hay`. -/
def charsLeading : List Char → List Char → Bool
  | _, [] => true
  | [], _ :: _ => false
  | a :: as, b :: bs => eqCI a b && charsLeading as bs

/-- Case-insensitive substring test on character lists. -/
def charsHave : List Char → List Char → Bool
  | [], need => need.isEmpty
  | a :: as, need => charsLeading (a :: as) need || charsHave as need

/-- Case-insensitive substring match, modelling the Mongo
`{$regex: term, $options: 'i'}` condition for a regex-free search term. -/
def containsCI (text term : String) : Bool :=
  charsHave text.data term.data

/-- True when a string is empty or whitespace only: the handler's
`!content || !String(content).trim()` rejection test. -/
def isBlank (s : String) : Bool :=
  s.data.all (fun c => c.toNat == 32 || c.toNat == 9 || c.toNat == 10 || c.toNat == 13)

/-- JavaScript truthiness of an optional query-string / body value:
`undefined` and the empty string are falsy. -/
def truthy : Option String → Bool
  | none => false
  | some s => !(s == "")

/-- A user document (fields used by the modelled routes; from `models/User.js`
as referenced by the routes and the spec data model). `year` is the empty
string when absent, matching the JS truthiness check `req.user.year`. -/
structure User where
  id : Nat
  name : String
  role : String
  department : String
  year : String
  isActive : Bool
deriving Repr, DecidableEq

/-- One entry of `notice.views` (`models/Notice.js`). -/
structure ViewEntry where
  user : Nat
  viewedAt : Nat
deriving Repr, DecidableEq

/-- One entry of `notice.acknowledged` (`models/Notice.js`). -/
structure AckEntry where
  user : Nat
  acknowledgedAt : Nat
deriving Repr, DecidableEq

/-- A notice document (`models/Notice.js`). -/
structure Notice where
  id : Nat
  title : String
  content : String
  category : String
  department : String
  targetYear : Option String
  author : Nat
  priority : String
  status : String
  isPinned : Bool
  isArchived : Bool
  views : List ViewEntry
  acknowledged : List AckEntry
deriving Repr, DecidableEq

/-- A comment document (`models/Comment.js`). -/
structure Comment where
  id : Nat
  notice : Nat
  author : Nat
  content : String
  parentComment : Option Nat
  replies : List Nat
  isEdited : Bool
deriving Repr, DecidableEq

/-- A notification document (`models/Notification.js`). -/
structure Notification where
  id : Nat
  user : Nat
  ntype : String
  message : String
  relatedNotice : Option Nat
  relatedComment : Option Nat
  isRead : Bool
  readAt : Option Nat
deriving Repr, DecidableEq

/-- The document store: one list per collection. -/
structure Store where
  users : List User
  notices : List Notice
  comments : List Comment
  notifications : List Notification
deriving Repr, DecidableEq

/-! ## GET /notices: query construction (routes/notices.js lines 14-53) -/

/-- The value living under the query's single `$or` key. The handler assigns
`query.$or` at most twice: once for the free-text search and once for the
student target-year narrowing; a plain property assignment, so the second
assignment replaces the first. -/
inductive OrCond where
  | searchOr (term : String)
  | yearOr (year : String)
deriving Repr, DecidableEq

/-- The composed Mongo query object built by the GET /notices handler.
`category = none` / `departmentIn = none` / `orCond = none` mean the key is
absent (no narrowing). `status` is always assigned. -/
structure NoticeQuery where
  category : Option String
  departmentIn : Option (List String)
  status : String
  orCond : Option OrCond
deriving Repr, DecidableEq

/-- Builds the query object exactly as routes/notices.js lines 16-53 does,
recording the final value of every key after the handler's sequence of
assignments:
- `category` key set when the parameter is truthy and not "all";
- `department` key set to `$in [department, "All Departments"]` when the
  parameter is truthy and not "all", else (for a logged-in student or
  faculty viewer) to `$in [viewer department, "All Departments"]`;
- `status` key set to the parameter when truthy, else "published";
- `$or` key: the search assignment (line 42) runs first and the student
  target-year assignment (line 50) runs second on the same key, so when the
  viewer is a student with a truthy year the year condition is the final
  value and the search condition is discarded. -/
def buildNoticeQuery (user : Option User) (category department status search : Option String) :
    NoticeQuery :=
  { category := if truthy category && !(category == some "all") then category else none,
    departmentIn :=
      if truthy department && !(department == some "all") then
        some [department.getD "", "All Departments"]
      else
        match user with
        | some u =>
          if u.role == "student" || u.role == "faculty" then
            some [u.department, "All Departments"]
          else none
        | none => none,
    status := if truthy status then status.getD "published" else "published",
    orCond :=
      match user with
      | some u =>
        if u.role == "student" && !(u.year == "") then some (OrCond.yearOr u.year)
        else if truthy search then some (OrCond.searchOr (search.getD "")) else none
      | none => if truthy search then some (OrCond.searchOr (search.getD "")) else none }

/-- Evaluation of the `$or` condition against one notice. -/
def matchesOr : OrCond → Notice → Bool
  | OrCond.searchOr t, n => containsCI n.title t || containsCI n.content t
  | OrCond.yearOr y, n =>
      n.targetYear == none || n.targetYear == some "" || n.targetYear == some y

/-- Evaluation of the composed query against one notice: every present key is
a conjunct (Mongo query semantics), with the fixed `isArchived: false` base. -/
def matchesQuery (q : NoticeQuery) (n : Notice) : Bool :=
  !n.isArchived
    && (match q.category with
        | none => true
        | some c => n.category == c)
    && (match q.departmentIn with
        | none => true
        | some ds => ds.contains n.department)
    && n.status == q.status
    && (match q.orCond with
        | none => true
        | some oc => matchesOr oc n)

/-! ## View and acknowledgment tracking (routes/notices.js lines 109-119 and 397-430) -/

/-- GET /notices/:id view side effect: append a view entry for the requesting
user only when none exists; the stored timestamp is the time of that first
append (`viewedAt` schema default `Date.now`). -/
def recordView (n : Notice) (userId now : Nat) : Notice :=
  if n.views.any (fun v => v.user == userId) then n
  else { n with views := n.views ++ [{ user := userId, viewedAt := now }] }

/-- POST /notices/:id/acknowledge: append an acknowledgment entry for the
requesting user only when none exists, then return the updated notice together
with the `acknowledgedCount` sent in the response
(`notice.acknowledged.length` after the conditional push). -/
def acknowledgeNotice (n : Notice) (userId now : Nat) : Notice × Nat :=
  let n2 :=
    if n.acknowledged.any (fun a => a.user == userId) then n
    else { n with acknowledged := n.acknowledged ++ [{ user := userId, acknowledgedAt := now }] }
  (n2, n2.acknowledged.length)

/-- Number of distinct users appearing in an acknowledgment list. -/
def distinctAckUsers (l : List AckEntry) : Nat :=
  (l.map (fun a => a.user)).dedup.length

/-! ## POST /comments (routes/comments.js lines 46-240) -/

/-- Outcome of POST /comments. Every constructor carries the store as it
stands when the handler responds, because the handler mutates the store
before some of its early returns. -/
inductive CreateCommentResult where
  | created (s : Store) (c : Comment)
  | badRequest (s : Store) (msg : String)
  | notFound (s : Store) (msg : String)
deriving Repr, DecidableEq

/-- Notification phase of POST /comments (lines 159-223), run after the
comment is saved and (when applicable) attached to its parent:
- a `comment` notification for the notice author when distinct from the
  commenter (lines 161-169);
- then, guarded by `if (comment.parentComment)` (line 190), a second
  `comment` notification for the parent comment author when distinct from
  the commenter. The handler never assigns `parentComment` on the comment it
  builds (lines 120-124), so the guard reads the schema default `null`; the
  branch is translated faithfully and shown unreachable in the theorems. -/
def finishComment (s : Store) (notice : Notice) (author : User) (c : Comment)
    (nid1 nid2 : Nat) : CreateCommentResult :=
  let s3 :=
    if !(notice.author == author.id) then
      { s with notifications := s.notifications ++
          [{ id := nid1, user := notice.author, ntype := "comment",
             message := author.name ++ " commented on your notice: " ++ notice.title,
             relatedNotice := some notice.id, relatedComment := some c.id,
             isRead := false, readAt := none }] }
    else s
  let s4 :=
    match c.parentComment with
    | none => s3
    | some ppid =>
      match s3.comments.find? (fun x => x.id == ppid) with
      | none => s3
      | some parent =>
        if parent.author == author.id then s3
        else
          { s3 with notifications := s3.notifications ++
              [{ id := nid2, user := parent.author, ntype := "comment",
                 message := author.name ++ " replied to your comment on: " ++ notice.title,
                 relatedNotice := some notice.id, relatedComment := some c.id,
                 isRead := false, readAt := none }] }
  CreateCommentResult.created s4 c

/-- POST /comments, for an already-resolved author user. Mirrors the handler
order exactly: content validation, notice lookup, then the new comment is
SAVED (line 130) before the parent checks run (lines 133-157); a parent
lookup failure or cross-notice mismatch returns without removing the saved
comment. On a valid parent the comment id is pushed onto the parent reply
list, then the notification phase runs. `newCommentId`, `nid1`, `nid2` stand
for the ObjectIds Mongo generates for the comment and the two potential
notifications. -/
def createComment (s : Store) (author : User) (noticeId : Nat) (content : String)
    (parentCommentId : Option Nat) (newCommentId nid1 nid2 : Nat) : CreateCommentResult :=
  if isBlank content then CreateCommentResult.badRequest s "content is required"
  else
    match s.notices.find? (fun n => n.id == noticeId) with
    | none => CreateCommentResult.notFound s "Notice not found"
    | some notice =>
      let c : Comment :=
        { id := newCommentId, notice := noticeId, author := author.id, content := content,
          parentComment := none, replies := [], isEdited := false }
      let s1 : Store := { s with comments := s.comments ++ [c] }
      match parentCommentId with
      | some pid =>
        match s1.comments.find? (fun x => x.id == pid) with
        | none => CreateCommentResult.notFound s1 "Parent comment not found"
        | some parent =>
          if !(parent.notice == noticeId) then
            CreateCommentResult.badRequest s1 "Parent comment does not belong to this notice"
          else
            let s2 : Store :=
              { s1 with comments := s1.comments.map (fun x =>
                  if x.id == pid then { x with replies := x.replies ++ [newCommentId] } else x) }
            finishComment s2 notice author c nid1 nid2
      | none => finishComment s1 notice author c nid1 nid2

/-- Store carried by a POST /comments outcome. -/
def ccStore : CreateCommentResult → Store
  | CreateCommentResult.created s _ => s
  | CreateCommentResult.badRequest s _ => s
  | CreateCommentResult.notFound s _ => s

/-- The persisted comment of a successful POST /comments outcome. -/
def ccCreatedComment : CreateCommentResult → Option Comment
  | CreateCommentResult.created _ c => some c
  | _ => none

/-- True exactly on the 400 validation outcome of POST /comments. -/
def ccIsBadRequest : CreateCommentResult → Bool
  | CreateCommentResult.badRequest _ _ => true
  | _ => false

/-! ## POST /notices (routes/notices.js lines 144-260) -/

/-- Body of POST /notices (after author resolution). Absent fields are
`none`; the Notice schema fills `priority` and `status` defaults. -/
structure NoticeReq where
  title : String
  content : String
  category : String
  department : String
  targetYear : Option String
  priority : Option String
  status : Option String
deriving Repr, DecidableEq

/-- Outcome of POST /notices for a resolved author. -/
inductive CreateNoticeResult where
  | created (s : Store) (n : Notice)
  | forbidden (s : Store) (msg : String)
deriving Repr, DecidableEq

/-- The notification documents built at lines 231-236: one per target user,
type `new_notice`, referencing the created notice, inserted in target order
with consecutively generated ids. -/
def mkNoticeNotifs (base noticeId : Nat) (category title : String) :
    List User → List Notification
  | [] => []
  | u :: us =>
    { id := base, user := u.id, ntype := "new_notice",
      message := "New " ++ category ++ " notice: " ++ title,
      relatedNotice := some noticeId, relatedComment := none,
      isRead := false, readAt := none } :: mkNoticeNotifs (base + 1) noticeId category title us

/-- Target users of a published notice (lines 219-228): all active students
when the department is the "All Departments" sentinel, else the active
students of that department. -/
def noticeTargets (users : List User) (department : String) : List User :=
  if department == "All Departments" then
    users.filter (fun u => u.role == "student" && u.isActive)
  else
    users.filter (fun u => u.role == "student" && u.department == department && u.isActive)

/-- The notice document saved by POST /notices: the body fields plus the
schema defaults (`priority` "medium" and `status` "published" when the body
omits them, flags false, empty view and acknowledgment lists). -/
def mkNotice (req : NoticeReq) (authorId newNoticeId : Nat) : Notice :=
  { id := newNoticeId, title := req.title, content := req.content,
    category := req.category, department := req.department,
    targetYear := req.targetYear, author := authorId,
    priority := req.priority.getD "medium", status := req.status.getD "published",
    isPinned := false, isArchived := false, views := [], acknowledged := [] }

/-- POST /notices for a resolved author: role gate, save of the new notice
(`mkNotice`), then — only when the RAW body `status` equals "published"
(line 217 tests the destructured body field, not the saved document) —
insertion of one notification per target user. -/
def createNotice (s : Store) (author : User) (req : NoticeReq)
    (newNoticeId notifBase : Nat) : CreateNoticeResult :=
  if !(author.role == "admin") && !(author.role == "faculty") then
    CreateNoticeResult.forbidden s "Access denied. Admin or Faculty only."
  else
    let n : Notice := mkNotice req author.id newNoticeId
    let s1 : Store := { s with notices := s.notices ++ [n] }
    let s2 : Store :=
      if req.status == some "published" then
        { s1 with notifications := s1.notifications ++
            (mkNoticeNotifs notifBase newNoticeId req.category req.title
              (noticeTargets s1.users req.department)) }
      else s1
    CreateNoticeResult.created s2 n

/-- Store carried by a POST /notices outcome. -/
def cnStore : CreateNoticeResult → Store
  | CreateNoticeResult.created s _ => s
  | CreateNoticeResult.forbidden s _ => s

/-- Status of the notice created by a successful POST /notices outcome. -/
def cnCreatedStatus : CreateNoticeResult → Option String
  | CreateNoticeResult.created _ n => some n.status
  | _ => none

/-! ## DELETE /comments/:id (routes/comments.js lines 335-431) -/

/-- Outcome of DELETE /comments/:id for a resolved acting user. -/
inductive DeleteCommentResult where
  | ok (s : Store)
  | notFound (s : Store)
  | forbidden (s : Store)
deriving Repr, DecidableEq

/-- The reply-unlink update applied to the parent document when a reply is
deleted (lines 404-411): the deleted comment's id is filtered out of the
parent's reply list; every other document is untouched. -/
def pruneReply (pid cid : Nat) (p : Comment) : Comment :=
  if p.id == pid then { p with replies := p.replies.filter (fun r => !(r == cid)) } else p

/-- DELETE /comments/:id: lookup, author-or-admin gate, then (lines 400-414):
for a top-level comment, `deleteMany({parentComment: comment._id})`; for a
reply, the found parent document's reply list is filtered and saved (modelled
by the id-keyed `pruneReply` map; a missing parent is a no-op, matching the
`if (parentComment)` guard). Finally `comment.deleteOne()` removes the
comment itself (id-keyed filter; `_id` is unique). -/
def deleteCommentRoute (s : Store) (actor : User) (cid : Nat) : DeleteCommentResult :=
  match s.comments.find? (fun c => c.id == cid) with
  | none => DeleteCommentResult.notFound s
  | some comment =>
    if !(actor.role == "admin") && !(comment.author == actor.id) then
      DeleteCommentResult.forbidden s
    else
      let afterCascade : List Comment :=
        match comment.parentComment with
        | none => s.comments.filter (fun x => !(x.parentComment == some cid))
        | some pid => s.comments.map (pruneReply pid cid)
      DeleteCommentResult.ok { s with comments := afterCascade.filter (fun x => !(x.id == cid)) }

/-! ## DELETE /notices/:id (routes/notices.js lines 352-394) -/

/-- Outcome of DELETE /notices/:id. -/
inductive DeleteNoticeResult where
  | ok (s : Store)
  | notFound (s : Store)
  | forbidden (s : Store)
  | unauthorized (s : Store)
deriving Repr, DecidableEq

/-- DELETE /notices/:id: `authenticate` (active user) and `isAdminOrFaculty`
middleware, lookup, author-or-admin gate, then the cascade (lines 371-377):
delete all comments of the notice, all notifications whose `relatedNotice`
is the notice, and the notice document itself. -/
def deleteNoticeRoute (s : Store) (actor : User) (nid : Nat) : DeleteNoticeResult :=
  if !actor.isActive then DeleteNoticeResult.unauthorized s
  else if !(actor.role == "admin") && !(actor.role == "faculty") then
    DeleteNoticeResult.forbidden s
  else
    match s.notices.find? (fun n => n.id == nid) with
    | none => DeleteNoticeResult.notFound s
    | some notice =>
      if !(notice.author == actor.id) && !(actor.role == "admin") then
        DeleteNoticeResult.forbidden s
      else
        DeleteNoticeResult.ok
          { s with
            comments := s.comments.filter (fun c => !(c.notice == nid)),
            notifications := s.notifications.filter (fun t => !(t.relatedNotice == some nid)),
            notices := s.notices.filter (fun n => !(n.id == nid)) }

/-! ## PUT /notifications/:id/read and DELETE /notifications/:id
(routes/notifications.js lines 53-82 and 106-133) -/

/-- Outcome of the per-notification operations. -/
inductive NotificationOpResult where
  | ok (s : Store)
  | notFound (s : Store)
deriving Repr, DecidableEq

/-- PUT /notifications/:id/read: `findOne({_id, user: req.user._id})` — the
lookup is scoped to the requesting user — then the found document is marked
read and saved (id-keyed map; `_id` is unique). -/
def markNotificationRead (s : Store) (userId notifId now : Nat) : NotificationOpResult :=
  match s.notifications.find? (fun t => t.id == notifId && t.user == userId) with
  | none => NotificationOpResult.notFound s
  | some _ =>
    NotificationOpResult.ok
      { s with notifications := s.notifications.map (fun t =>
          if t.id == notifId && t.user == userId then
            { t with isRead := true, readAt := some now }
          else t) }

/-- DELETE /notifications/:id: same user-scoped lookup, then
`notification.deleteOne()` on the found document (id-keyed filter). -/
def deleteNotificationRoute (s : Store) (userId notifId : Nat) : NotificationOpResult :=
  match s.notifications.find? (fun t => t.id == notifId && t.user == userId) with
  | none => NotificationOpResult.notFound s
  | some _ =>
    NotificationOpResult.ok
      { s with notifications := s.notifications.filter (fun t => !(t.id == notifId)) }

/-! ## Concrete fixtures used by counterexamples and witnesses -/

/-- A faculty user, author of the fixture notices. -/
def uFac : User :=
  { id := 1, name := "Prof F", role := "faculty", department := "CSE", year := "",
    isActive := true }

/-- A CSE third-year student. -/
def uStu : User :=
  { id := 2, name := "Stu S", role := "student", department := "CSE", year := "3rd Year",
    isActive := true }

/-- A second student, author of the fixture parent comment. -/
def uStu2 : User :=
  { id := 3, name := "Stu T", role := "student", department := "CSE", year := "3rd Year",
    isActive := true }

/-- An admin user. -/
def uAdm : User :=
  { id := 4, name := "Adm A", role := "admin", department := "Administration", year := "",
    isActive := true }

/-- A published CSE notice authored by the faculty user. -/
def nOne : Notice :=
  { id := 10, title := "Tech Fest", content := "fun things", category := "events",
    department := "CSE", targetYear := some "3rd Year", author := 1, priority := "medium",
    status := "published", isPinned := false, isArchived := false, views := [],
    acknowledged := [] }

/-- A second published notice, used as the other notice of the cross-notice
reply fixture. -/
def nTwo : Notice :=
  { id := 11, title := "Workshop", content := "learn things", category := "academic",
    department := "CSE", targetYear := none, author := 1, priority := "medium",
    status := "published", isPinned := false, isArchived := false, views := [],
    acknowledged := [] }

/-- Fixture comment attached to notice 11, authored by user 3. -/
def cOnTwo : Comment :=
  { id := 20, notice := 11, author := 3, content := "first", parentComment := none,
    replies := [], isEdited := false }

/-- Fixture comment attached to notice 10, authored by user 3. -/
def cOnOne : Comment :=
  { id := 20, notice := 10, author := 3, content := "first", parentComment := none,
    replies := [], isEdited := false }

/-- Store for the cross-notice reply counterexample: the candidate parent
comment 20 belongs to notice 11 while the reply targets notice 10. -/
def sCross : Store :=
  { users := [uFac, uStu, uStu2], notices := [nOne, nTwo], comments := [cOnTwo],
    notifications := [] }

/-- Store for the reply-notification fixture: parent comment 20 lives on
notice 10, so a reply to it is valid. -/
def sReply : Store :=
  { users := [uFac, uStu, uStu2], notices := [nOne], comments := [cOnOne],
    notifications := [] }

/-- The cross-notice reply request evaluated on `sCross`. -/
def crossRun : CreateCommentResult :=
  createComment sCross uStu 10 "a reply" (some 20) 21 30 31

/-- The valid reply request evaluated on `sReply`: user 2 replies to user 3
on a notice authored by user 1. -/
def replyRun : CreateCommentResult :=
  createComment sReply uStu 10 "a reply" (some 20) 21 30 31

/-- POST /notices body whose `status` field is absent. -/
def reqNoStatus : NoticeReq :=
  { title := "T", content := "C", category := "exams", department := "CSE",
    targetYear := none, priority := none, status := none }

/-- Store for the notice-creation fixture: one admin, one active CSE student. -/
def sUsersOnly : Store :=
  { users := [uAdm, uStu], notices := [], comments := [], notifications := [] }

/-- Creation of a notice with absent `status` on `sUsersOnly`. -/
def noStatusRun : CreateNoticeResult :=
  createNotice sUsersOnly uAdm reqNoStatus 40 50

/-- Comment-thread fixture: top-level comment 1 with replies 2 and 3. -/
def cTop : Comment :=
  { id := 1, notice := 10, author := 2, content := "top", parentComment := none,
    replies := [2, 3], isEdited := false }

/-- First reply of the thread fixture. -/
def cRepA : Comment :=
  { id := 2, notice := 10, author := 3, content := "rep a", parentComment := some 1,
    replies := [], isEdited := false }

/-- Second reply of the thread fixture. -/
def cRepB : Comment :=
  { id := 3, notice := 10, author := 2, content := "rep b", parentComment := some 1,
    replies := [], isEdited := false }

/-- Store holding the comment thread together with a related notification. -/
def sThread : Store :=
  { users := [uFac, uStu, uStu2, uAdm], notices := [nOne],
    comments := [cTop, cRepA, cRepB],
    notifications := [{ id := 5, user := 3, ntype := "comment", message := "m",
                        relatedNotice := some 10, relatedComment := some 1,
                        isRead := false, readAt := none }] }

/-! ## Shared helper lemmas -/

/-- On a list whose keys are pairwise distinct, `find?` keyed on a member's
key returns exactly that member. -/
theorem find_key_of_nodup {α : Type} (f : α → Nat) {l : List α} {p : α} {k : Nat}
    (hnd : (l.map f).Nodup) (hp : p ∈ l) (hk : f p = k) :
    l.find? (fun x => f x == k) = some p := by
  induction l with
  | nil => cases hp
  | cons a as ih =>
    rw [List.map_cons, List.nodup_cons] at hnd
    rcases List.mem_cons.mp hp with h | h
    · subst h
      exact List.find?_cons_of_pos _ (by simp [hk])
    · have hne : ¬ (f a == k) = true := by
        simp only [beq_iff_eq]
        intro hak
        exact hnd.1 (hak ▸ hk ▸ List.mem_map_of_mem f h)
      rw [@List.find?_cons_of_neg _ (fun x => f x == k) a as hne]
      exact ih hnd.2 h

/-- `find?` over a left-extended list keeps a hit found in the left part. -/
theorem find_append_left {α : Type} {l1 : List α} (l2 : List α) {p : α → Bool} {a : α}
    (h : l1.find? p = some a) : (l1 ++ l2).find? p = some a := by
  induction l1 with
  | nil => cases h
  | cons x xs ih =>
    by_cases hx : p x = true
    · rw [List.find?_cons_of_pos _ hx] at h
      rw [List.cons_append, List.find?_cons_of_pos _ hx]
      exact h
    · rw [List.find?_cons_of_neg _ hx] at h
      rw [List.cons_append, List.find?_cons_of_neg _ hx]
      exact ih h

/-- The recipients of the batch of new-notice notifications are exactly the
target users, in order. -/
theorem mkNoticeNotifs_map_user (nid : Nat) (cat title : String) :
    ∀ (l : List User) (base : Nat),
      (mkNoticeNotifs base nid cat title l).map (fun t => t.user) = l.map (fun u => u.id)
  | [], _ => rfl
  | _ :: us, base => by
    simp only [mkNoticeNotifs, List.map_cons]
    rw [mkNoticeNotifs_map_user nid cat title us (base + 1)]

/-- Every notification in the new-notice batch is a `new_notice` notification
for one of the target users, referencing the created notice. -/
theorem mkNoticeNotifs_mem (nid : Nat) (cat title : String) :
    ∀ (l : List User) (base : Nat) (t : Notification),
      t ∈ mkNoticeNotifs base nid cat title l →
      ∃ u, u ∈ l ∧ t.user = u.id ∧ t.ntype = "new_notice" ∧ t.relatedNotice = some nid
  | [], _, _, h => by cases h
  | u :: us, base, t, h => by
    rcases List.mem_cons.mp h with h | h
    · exact ⟨u, List.mem_cons_self u us, by rw [h], by rw [h], by rw [h]⟩
    · obtain ⟨v, hv, hrest⟩ := mkNoticeNotifs_mem nid cat title us (base + 1) t h
      exact ⟨v, List.mem_cons_of_mem u hv, hrest⟩

/-- The two branches of the target-set computation collapse to a single
filter: active students whose department matches, where the sentinel
"All Departments" matches every student. -/
theorem noticeTargets_eq (users : List User) (dep : String) :
    noticeTargets users dep = users.filter (fun u =>
      u.role == "student" && u.isActive &&
        (dep == "All Departments" || u.department == dep)) := by
  unfold noticeTargets
  by_cases h : (dep == "All Departments") = true
  · rw [if_pos h]
    refine List.filter_congr fun u _ => ?_
    rw [h]
    cases u.role == "student" <;> cases u.isActive <;> rfl
  · rw [if_neg h]
    rw [Bool.not_eq_true] at h
    refine List.filter_congr fun u _ => ?_
    rw [h]
    cases u.role == "student" <;> cases u.isActive <;> cases u.department == dep <;> rfl

/-! ## Claim theorems -/

/-- C1, counterexample: a create-comment request on notice 10 naming parent
comment 20 — which is attached to notice 11 — is answered with the 400
validation outcome, yet the comment store has grown by one: the handler saves
the comment before checking the parent, so the store is NOT unchanged. -/
theorem createComment_crossNotice_store_changed_cex :
    ccIsBadRequest crossRun = true ∧
    (ccStore crossRun).comments.length = sCross.comments.length + 1 := by
  decide

/-- C2, code-bug evidence: a fully valid reply (parent comment 20 on the same
notice 10, parent author 3, commenter 2, notice author 1, all distinct) is
accepted and linked into the parent's reply list, but the stored comment's
`parentComment` is `null` — the handler never assigns it — so the reply
branch of the notification phase does not run and the only notification
created is the one for the notice author: no `comment` notification for the
parent comment's author (user 3) exists afterwards. -/
theorem createComment_reply_no_parent_author_notification :
    (ccCreatedComment replyRun).map (fun c => c.parentComment) = some none ∧
    ((ccStore replyRun).comments.find? (fun x => x.id == 20)).map (fun p => p.replies) =
      some [21] ∧
    (ccStore replyRun).notifications.map (fun t => t.user) = [1] ∧
    cOnOne.author = 3 ∧ uStu.id = 2 ∧ nOne.author = 1 := by
  decide

/-- C3, counterexample: the CSE third-year student viewer supplies the search
term "zzz"; notice `nOne` matches the built query even though neither its
title nor its content contains the term — the student-year `$or` assignment
has overwritten the search condition, so search and year narrowing are NOT
combined by AND. -/
theorem studentSearch_dropped_cex :
    matchesQuery (buildNoticeQuery (some uStu) none none none (some "zzz")) nOne = true ∧
    containsCI nOne.title "zzz" = false ∧
    containsCI nOne.content "zzz" = false := by
  decide

/-- C6, counterexample: a create-notice request that omits `status` yields a
notice whose stored status defaults to "published", while the notification
fan-out — keyed on the raw body field — creates no notification at all, even
though the target set (the active CSE student) is non-empty. -/
theorem createNotice_default_published_no_notifications_cex :
    cnCreatedStatus noStatusRun = some "published" ∧
    (cnStore noStatusRun).notifications = [] ∧
    noticeTargets sUsersOnly.users "CSE" ≠ [] := by
  decide

/-- C1 (amended): a create-comment request whose `parentCommentId` names an
existing comment attached to a different notice is answered with the 400
validation outcome, but the comment store is NOT unchanged: the handler saved
the new comment before running the parent checks, so the resulting store is
exactly the old one with the new (orphaned, unlinked, notification-free)
comment appended. -/
theorem createComment_crossNotice_rejected_but_persisted
    (s : Store) (author : User) (noticeId : Nat) (content : String) (pid : Nat)
    (ncid nid1 nid2 : Nat) (notice : Notice) (parent : Comment)
    (hc : isBlank content = false)
    (hn : s.notices.find? (fun n => n.id == noticeId) = some notice)
    (hp : s.comments.find? (fun x => x.id == pid) = some parent)
    (hx : parent.notice ≠ noticeId) :
    createComment s author noticeId content (some pid) ncid nid1 nid2 =
      CreateCommentResult.badRequest
        { s with comments := s.comments ++
            [{ id := ncid, notice := noticeId, author := author.id, content := content,
               parentComment := none, replies := [], isEdited := false }] }
        "Parent comment does not belong to this notice" := by
  have hb : (parent.notice == noticeId) = false := by simp [hx]
  have hfind :
      (s.comments ++
        [({ id := ncid, notice := noticeId, author := author.id, content := content,
            parentComment := none, replies := [], isEdited := false } : Comment)]).find?
        (fun x => x.id == pid) = some parent :=
    find_append_left _ hp
  simp only [createComment, hc, Bool.false_eq_true, if_false, hn, hfind, hb,
    Bool.not_false, if_true]

/-- Witness for the amended C1 theorem: the cross-notice reply fixture. -/
theorem createComment_crossNotice_rejected_but_persisted_witness :
    createComment sCross uStu 10 "a reply" (some 20) 21 30 31 =
      CreateCommentResult.badRequest
        { sCross with comments := sCross.comments ++
            [{ id := 21, notice := 10, author := uStu.id, content := "a reply",
               parentComment := none, replies := [], isEdited := false }] }
        "Parent comment does not belong to this notice" :=
  createComment_crossNotice_rejected_but_persisted sCross uStu 10 "a reply" 20 21 30 31
    nOne cOnTwo (by decide) (by decide) (by decide) (by decide)

/-- C3 (amended): for a student viewer with a non-empty year, the free-text
search term is ignored — the handler's student-year `$or` assignment
overwrites the search `$or` assignment — so the query built with a search
term is the very query built without one. -/
theorem buildNoticeQuery_student_year_ignores_search
    (u : User) (cat dep st : Option String) (term : String)
    (hrole : u.role = "student") (hyear : u.year ≠ "") :
    buildNoticeQuery (some u) cat dep st (some term) =
      buildNoticeQuery (some u) cat dep st none := by
  have h1 : (u.role == "student") = true := by simp [hrole]
  have h2 : (u.year == "") = false := by simp [hyear]
  simp only [buildNoticeQuery, h1, h2, Bool.not_false, Bool.and_self, if_true]

/-- Witness for the amended C3 theorem: the CSE third-year student viewer
with search term "zzz". -/
theorem buildNoticeQuery_student_year_ignores_search_witness :
    buildNoticeQuery (some uStu) none none none (some "zzz") =
      buildNoticeQuery (some uStu) none none none none :=
  buildNoticeQuery_student_year_ignores_search uStu none none none "zzz"
    (by decide) (by decide)

/-- C4: recording a view twice for the same user leaves exactly one view
entry for that user, carrying the timestamp of the first call; the second
call is a no-op on the notice (and the operation is total, so repeated calls
cannot error). -/
theorem recordView_twice_single_entry (n : Notice) (u t1 t2 : Nat)
    (h : n.views.any (fun v => v.user == u) = false) :
    recordView (recordView n u t1) u t2 = recordView n u t1 ∧
    (recordView (recordView n u t1) u t2).views.filter (fun v => v.user == u) =
      [{ user := u, viewedAt := t1 }] := by
  have h1 : recordView n u t1 =
      { n with views := n.views ++ [{ user := u, viewedAt := t1 }] } := by
    simp only [recordView, h, Bool.false_eq_true, if_false]
  have h2 : recordView (recordView n u t1) u t2 = recordView n u t1 := by
    rw [h1, recordView]
    simp [List.any_append]
  have hnil : n.views.filter (fun v => v.user == u) = [] :=
    List.filter_eq_nil_iff.mpr (List.any_eq_false.mp h)
  refine ⟨h2, ?_⟩
  rw [h2, h1]
  simp [List.filter_append, hnil]

/-- Witness for C4 at a concrete notice and user. -/
theorem recordView_twice_single_entry_witness :
    recordView (recordView nOne 2 100) 2 200 = recordView nOne 2 100 ∧
    (recordView (recordView nOne 2 100) 2 200).views.filter (fun v => v.user == 2) =
      [{ user := 2, viewedAt := 100 }] :=
  recordView_twice_single_entry nOne 2 100 200 (by decide)

/-- C5: acknowledging a notice twice for the same user leaves exactly one
acknowledgment entry for that user (timestamp of the first call, second call
a no-op), and the count returned by the second call equals the number of
distinct users ever recorded in the acknowledgment list. -/
theorem acknowledge_twice_idempotent_count (n : Notice) (u t1 t2 : Nat)
    (hnd : (n.acknowledged.map (fun a => a.user)).Nodup)
    (h : n.acknowledged.any (fun a => a.user == u) = false) :
    (acknowledgeNotice (acknowledgeNotice n u t1).1 u t2).1 = (acknowledgeNotice n u t1).1 ∧
    (acknowledgeNotice (acknowledgeNotice n u t1).1 u t2).1.acknowledged.filter
      (fun a => a.user == u) = [{ user := u, acknowledgedAt := t1 }] ∧
    (acknowledgeNotice (acknowledgeNotice n u t1).1 u t2).2 =
      distinctAckUsers
        (acknowledgeNotice (acknowledgeNotice n u t1).1 u t2).1.acknowledged := by
  have h1 : (acknowledgeNotice n u t1).1 =
      { n with acknowledged := n.acknowledged ++ [{ user := u, acknowledgedAt := t1 }] } := by
    simp only [acknowledgeNotice, h, Bool.false_eq_true, if_false]
  have hany : (({ n with acknowledged :=
      n.acknowledged ++ [{ user := u, acknowledgedAt := t1 }] } : Notice).acknowledged.any
        (fun a => a.user == u)) = true := by
    simp [List.any_append]
  have h2 : (acknowledgeNotice (acknowledgeNotice n u t1).1 u t2).1 =
      (acknowledgeNotice n u t1).1 := by
    rw [h1, acknowledgeNotice]
    simp only [hany, if_true]
  have hnil : n.acknowledged.filter (fun a => a.user == u) = [] :=
    List.filter_eq_nil_iff.mpr (List.any_eq_false.mp h)
  have hmem : u ∉ n.acknowledged.map (fun a => a.user) := by
    intro hu
    obtain ⟨a, ha, hau⟩ := List.mem_map.mp hu
    exact (List.any_eq_false.mp h) a ha (by simp [hau])
  refine ⟨h2, ?_, ?_⟩
  · rw [h2, h1]
    simp [List.filter_append, hnil]
  · have hlen : ∀ (m : Notice) (uu tt : Nat),
        (acknowledgeNotice m uu tt).2 = (acknowledgeNotice m uu tt).1.acknowledged.length :=
      fun _ _ _ => rfl
    rw [hlen, h2, h1]
    have hnd2 : ((n.acknowledged ++ [({ user := u, acknowledgedAt := t1 } : AckEntry)]).map
        (fun a => a.user)).Nodup := by
      rw [List.map_append]
      simp [List.nodup_append, hnd, hmem]
    simp only [distinctAckUsers]
    rw [List.dedup_eq_self.mpr hnd2, List.length_map]

/-- Witness for C5 at a concrete notice and user. -/
theorem acknowledge_twice_idempotent_count_witness :
    (acknowledgeNotice (acknowledgeNotice nOne 2 100).1 2 200).1 =
      (acknowledgeNotice nOne 2 100).1 ∧
    (acknowledgeNotice (acknowledgeNotice nOne 2 100).1 2 200).1.acknowledged.filter
      (fun a => a.user == 2) = [{ user := 2, acknowledgedAt := 100 }] ∧
    (acknowledgeNotice (acknowledgeNotice nOne 2 100).1 2 200).2 =
      distinctAckUsers
        (acknowledgeNotice (acknowledgeNotice nOne 2 100).1 2 200).1.acknowledged :=
  acknowledge_twice_idempotent_count nOne 2 100 200 (by decide) (by decide)

/-- C6 (amended): creating a notice appends a batch of notifications to the
store; the batch is non-empty only when the request body explicitly carries
status "published" (a body omitting `status` yields a notice stored as
"published" — the schema default — but an empty batch, and scheduled or draft
bodies also yield an empty batch). When the body status is "published", the
batch recipients are exactly the active students whose department matches
the notice's department (every active student for "All Departments"), one
`new_notice` notification per target referencing the notice; faculty and
admin users never receive one. -/
theorem createNotice_notification_fanout
    (s : Store) (author : User) (req : NoticeReq) (nid base : Nat)
    (hrole : author.role = "admin" ∨ author.role = "faculty") :
    ∃ s' n added,
      createNotice s author req nid base = CreateNoticeResult.created s' n ∧
      s'.notifications = s.notifications ++ added ∧
      n.status = req.status.getD "published" ∧
      (req.status ≠ some "published" → added = []) ∧
      (req.status = some "published" →
        added.map (fun t => t.user) =
          (s.users.filter (fun u => u.role == "student" && u.isActive &&
            (req.department == "All Departments" || u.department == req.department))).map
            (fun u => u.id)) ∧
      (∀ t ∈ added, t.ntype = "new_notice" ∧ t.relatedNotice = some nid) ∧
      (∀ t ∈ added, ∃ u, u ∈ s.users ∧ u.id = t.user ∧ u.role = "student" ∧
        u.isActive = true) := by
  have hgate : (!(author.role == "admin") && !(author.role == "faculty")) = false := by
    rcases hrole with h | h <;> simp [h]
  by_cases hpub : (req.status == some "published") = true
  · refine ⟨{ s with
        notices := s.notices ++ [mkNotice req author.id nid],
        notifications := s.notifications ++
          (mkNoticeNotifs base nid req.category req.title
            (noticeTargets s.users req.department)) },
      mkNotice req author.id nid,
      mkNoticeNotifs base nid req.category req.title (noticeTargets s.users req.department),
      ?_, rfl, rfl, ?_, ?_, ?_, ?_⟩
    · simp only [createNotice, hgate, Bool.false_eq_true, if_false, hpub, if_true]
    · intro hne
      exact absurd (beq_iff_eq.mp hpub) hne
    · intro _
      rw [mkNoticeNotifs_map_user, noticeTargets_eq]
    · intro t ht
      obtain ⟨u, _, _, hty, hrel⟩ :=
        mkNoticeNotifs_mem nid req.category req.title _ base t ht
      exact ⟨hty, hrel⟩
    · intro t ht
      obtain ⟨u, hu, huser, _, _⟩ :=
        mkNoticeNotifs_mem nid req.category req.title _ base t ht
      rw [noticeTargets_eq] at hu
      obtain ⟨hmem, hcond⟩ := List.mem_filter.mp hu
      simp only [Bool.and_eq_true] at hcond
      obtain ⟨⟨hr, ha⟩, _⟩ := hcond
      exact ⟨u, hmem, huser.symm, beq_iff_eq.mp hr, ha⟩
  · have hpub2 : (req.status == some "published") = false := by
      simpa using hpub
    refine ⟨{ s with notices := s.notices ++ [mkNotice req author.id nid] },
      mkNotice req author.id nid, [], ?_, ?_, rfl, fun _ => rfl, ?_, ?_, ?_⟩
    · simp only [createNotice, hgate, Bool.false_eq_true, if_false, hpub2]
    · simp only [List.append_nil]
    · intro hs
      rw [hs] at hpub2
      simp at hpub2
    · intro t ht
      cases ht
    · intro t ht
      cases ht

/-- Witness for the amended C6 theorem: an admin publishes (explicit status
"published") on the two-user fixture store. -/
theorem createNotice_notification_fanout_witness :
    ∃ s' n added,
      createNotice sUsersOnly uAdm
        { title := "T", content := "C", category := "exams", department := "CSE",
          targetYear := none, priority := none, status := some "published" } 40 50 =
        CreateNoticeResult.created s' n ∧
      s'.notifications = sUsersOnly.notifications ++ added ∧
      n.status = (some "published").getD "published" ∧
      (some "published" ≠ some "published" → added = []) ∧
      (some "published" = some "published" →
        added.map (fun t => t.user) =
          (sUsersOnly.users.filter (fun u => u.role == "student" && u.isActive &&
            (("CSE" : String) == "All Departments" || u.department == "CSE"))).map
            (fun u => u.id)) ∧
      (∀ t ∈ added, t.ntype = "new_notice" ∧ t.relatedNotice = some 40) ∧
      (∀ t ∈ added, ∃ u, u ∈ sUsersOnly.users ∧ u.id = t.user ∧ u.role = "student" ∧
        u.isActive = true) :=
  createNotice_notification_fanout sUsersOnly uAdm
    { title := "T", content := "C", category := "exams", department := "CSE",
      targetYear := none, priority := none, status := some "published" } 40 50
    (Or.inl (by decide))

/-- C7: for a student or faculty viewer, (i) without an explicit department
parameter the composed query only matches notices of the viewer's own
department or of "All Departments"; (ii) an explicit non-empty, non-"all"
department parameter takes precedence and fixes the department condition to
that department (plus the sentinel); (iii) a student viewer with a non-empty
year only matches notices whose targetYear is absent, empty, or equal to the
viewer's year. -/
theorem noticeQuery_department_year_scoping
    (u : User) (cat dep st search : Option String) (n : Notice)
    (hrole : u.role = "student" ∨ u.role = "faculty") :
    ((dep = none ∨ dep = some "" ∨ dep = some "all") →
      matchesQuery (buildNoticeQuery (some u) cat dep st search) n = true →
      n.department = u.department ∨ n.department = "All Departments") ∧
    (∀ d, dep = some d → d ≠ "" → d ≠ "all" →
      (buildNoticeQuery (some u) cat dep st search).departmentIn =
        some [d, "All Departments"]) ∧
    (u.role = "student" → u.year ≠ "" →
      matchesQuery (buildNoticeQuery (some u) cat dep st search) n = true →
      (n.targetYear = none ∨ n.targetYear = some "" ∨ n.targetYear = some u.year)) := by
  have hrb : (u.role == "student" || u.role == "faculty") = true := by
    rcases hrole with h | h <;> simp [h]
  refine ⟨?_, ?_, ?_⟩
  · intro hdep hm
    have hdIn : (buildNoticeQuery (some u) cat dep st search).departmentIn =
        some [u.department, "All Departments"] := by
      show (if truthy dep && !(dep == some "all") then some [dep.getD "", "All Departments"]
        else if u.role == "student" || u.role == "faculty" then
          some [u.department, "All Departments"] else none) =
        some [u.department, "All Departments"]
      rcases hdep with h | h | h <;> subst h <;> simp [truthy, hrb]
    unfold matchesQuery at hm
    rw [hdIn] at hm
    simp only [Bool.and_eq_true] at hm
    have hcont : ([u.department, "All Departments"].contains n.department) = true :=
      hm.1.1.2
    have hmem : n.department ∈ [u.department, "All Departments"] :=
      List.elem_iff.mp hcont
    rcases List.mem_cons.mp hmem with h | h
    · exact Or.inl h
    · exact Or.inr (List.mem_singleton.mp h)
  · intro d hdep hne hnall
    subst hdep
    have ht : truthy (some d) = true := by simp [truthy, hne]
    have ha : ((some d : Option String) == some "all") = false := by simp [hnall]
    show (if truthy (some d) && !((some d : Option String) == some "all") then
        some [(some d : Option String).getD "", "All Departments"]
      else if u.role == "student" || u.role == "faculty" then
        some [u.department, "All Departments"] else none) =
      some [d, "All Departments"]
    rw [ht, ha]
    rfl
  · intro hstu hyear hm
    have h1 : (u.role == "student") = true := by simp [hstu]
    have h2 : (u.year == "") = false := by simp [hyear]
    have hor : (buildNoticeQuery (some u) cat dep st search).orCond =
        some (OrCond.yearOr u.year) := by
      show (if u.role == "student" && !(u.year == "") then some (OrCond.yearOr u.year)
        else if truthy search then some (OrCond.searchOr (search.getD "")) else none) =
        some (OrCond.yearOr u.year)
      rw [h1, h2]
      rfl
    unfold matchesQuery at hm
    rw [hor] at hm
    simp only [Bool.and_eq_true] at hm
    have hy : matchesOr (OrCond.yearOr u.year) n = true := hm.2
    unfold matchesOr at hy
    simp only [Bool.or_eq_true] at hy
    rcases hy with (hy | hy) | hy
    · exact Or.inl (beq_iff_eq.mp hy)
    · exact Or.inr (Or.inl (beq_iff_eq.mp hy))
    · exact Or.inr (Or.inr (beq_iff_eq.mp hy))

/-- Witness for C7: the CSE third-year student viewer against the CSE fixture
notice, with no explicit filters and no search term. -/
theorem noticeQuery_department_year_scoping_witness :
    ((none = (none : Option String) ∨ none = some "" ∨ none = some "all") →
      matchesQuery (buildNoticeQuery (some uStu) none none none none) nOne = true →
      nOne.department = uStu.department ∨ nOne.department = "All Departments") ∧
    (∀ d, (none : Option String) = some d → d ≠ "" → d ≠ "all" →
      (buildNoticeQuery (some uStu) none none none none).departmentIn =
        some [d, "All Departments"]) ∧
    (uStu.role = "student" → uStu.year ≠ "" →
      matchesQuery (buildNoticeQuery (some uStu) none none none none) nOne = true →
      (nOne.targetYear = none ∨ nOne.targetYear = some "" ∨
        nOne.targetYear = some uStu.year)) :=
  noticeQuery_department_year_scoping uStu none none none none nOne (Or.inl (by decide))

/-- The reply-unlink update never changes a document's id. -/
theorem pruneReply_id (pid cid : Nat) (p : Comment) : (pruneReply pid cid p).id = p.id := by
  unfold pruneReply
  split <;> rfl

/-- C8: successful comment deletion. For a top-level comment the surviving
comments are exactly those that are neither the comment itself nor one of
its direct replies (single-level cascade). For a reply, no comment with the
deleted id survives, the parent document survives with exactly the remaining
reply ids, and every other comment still belongs to the store. -/
theorem deleteComment_cascade_and_reply_unlink
    (s : Store) (actor : User) (cid : Nat) (comment : Comment)
    (hf : s.comments.find? (fun c => c.id == cid) = some comment)
    (hauth : actor.role = "admin" ∨ comment.author = actor.id)
    (hnd : (s.comments.map (fun c => c.id)).Nodup) :
    ∃ s', deleteCommentRoute s actor cid = DeleteCommentResult.ok s' ∧
      (comment.parentComment = none →
        ∀ x : Comment, x ∈ s'.comments ↔
          (x ∈ s.comments ∧ x.id ≠ cid ∧ x.parentComment ≠ some cid)) ∧
      (∀ pid, comment.parentComment = some pid → pid ≠ cid →
        (∀ x : Comment, x ∈ s'.comments → x.id ≠ cid) ∧
        (∀ p : Comment, s.comments.find? (fun c => c.id == pid) = some p →
          s'.comments.find? (fun c => c.id == pid) =
            some { p with replies := p.replies.filter (fun r => !(r == cid)) }) ∧
        (∀ x : Comment, x ∈ s.comments → x.id ≠ cid → x.id ≠ pid → x ∈ s'.comments)) := by
  have hgate : (!(actor.role == "admin") && !(comment.author == actor.id)) = false := by
    rcases hauth with h | h <;> simp [h]
  cases hpc : comment.parentComment with
  | none =>
    refine ⟨{ s with
        comments := (s.comments.filter (fun x => !(x.parentComment == some cid))).filter
          (fun x => !(x.id == cid)) }, ?_, ?_, ?_⟩
    · simp only [deleteCommentRoute, hf, hgate, Bool.false_eq_true, if_false, hpc]
    · intro _ x
      simp only [List.mem_filter, Bool.not_eq_true', beq_eq_false_iff_ne]
      tauto
    · intro pid h
      cases h
  | some pid0 =>
    refine ⟨{ s with
        comments := (s.comments.map (pruneReply pid0 cid)).filter
          (fun x => !(x.id == cid)) }, ?_, ?_, ?_⟩
    · simp only [deleteCommentRoute, hf, hgate, Bool.false_eq_true, if_false, hpc]
    · intro h
      cases h
    · intro pid hpcc hpidne
      rw [Option.some.injEq] at hpcc
      subst hpcc
      have hids : (s.comments.map (pruneReply pid0 cid)).map (fun c => c.id) =
          s.comments.map (fun c => c.id) := by
        rw [List.map_map]
        exact List.map_congr_left (fun a _ => pruneReply_id pid0 cid a)
      refine ⟨?_, ?_, ?_⟩
      · intro x hx
        have := (List.mem_filter.mp hx).2
        simpa using this
      · intro p hp
        have hpmem : p ∈ s.comments := List.mem_of_find?_eq_some hp
        have hpid : p.id = pid0 := by simpa using List.find?_some hp
        have hup : pruneReply pid0 cid p =
            { p with replies := p.replies.filter (fun r => !(r == cid)) } := by
          unfold pruneReply
          rw [if_pos (by simp [hpid])]
        have hupid : (pruneReply pid0 cid p).id = pid0 := by
          rw [pruneReply_id]
          exact hpid
        have hmemf : pruneReply pid0 cid p ∈
            (s.comments.map (pruneReply pid0 cid)).filter (fun x => !(x.id == cid)) := by
          refine List.mem_filter.mpr ⟨List.mem_map_of_mem _ hpmem, ?_⟩
          simp [hupid, hpidne]
        have hndf :
            ((((s.comments.map (pruneReply pid0 cid)).filter
              (fun x => !(x.id == cid)))).map (fun c => c.id)).Nodup := by
          refine List.Nodup.sublist ?_ (hids ▸ hnd)
          exact (List.filter_sublist _).map _
        have hfind := find_key_of_nodup (fun c => c.id) hndf hmemf hupid
        rw [hup] at hfind
        exact hfind
      · intro x hx hxid hxpid
        have hupx : pruneReply pid0 cid x = x := by
          unfold pruneReply
          rw [if_neg (by simp [hxpid])]
        refine List.mem_filter.mpr ⟨?_, by simp [hxid]⟩
        rw [← hupx]
        exact List.mem_map_of_mem _ hx

/-- Witness for C8: the admin deletes reply 2 in the thread fixture. -/
theorem deleteComment_cascade_and_reply_unlink_witness :
    ∃ s', deleteCommentRoute sThread uAdm 2 = DeleteCommentResult.ok s' ∧
      (cRepA.parentComment = none →
        ∀ x : Comment, x ∈ s'.comments ↔
          (x ∈ sThread.comments ∧ x.id ≠ 2 ∧ x.parentComment ≠ some 2)) ∧
      (∀ pid, cRepA.parentComment = some pid → pid ≠ 2 →
        (∀ x : Comment, x ∈ s'.comments → x.id ≠ 2) ∧
        (∀ p : Comment, sThread.comments.find? (fun c => c.id == pid) = some p →
          s'.comments.find? (fun c => c.id == pid) =
            some { p with replies := p.replies.filter (fun r => !(r == 2)) }) ∧
        (∀ x : Comment, x ∈ sThread.comments → x.id ≠ 2 → x.id ≠ pid → x ∈ s'.comments)) :=
  deleteComment_cascade_and_reply_unlink sThread uAdm 2 cRepA (by decide)
    (Or.inl (by decide)) (by decide)

/-- C9: a successful hard delete of a notice removes the notice, every
comment attached to it and every notification referencing it, and nothing
else: the surviving comments, notifications and notices are exactly the ones
not tied to the deleted notice, and the user collection is untouched. -/
theorem deleteNotice_cascades
    (s : Store) (actor : User) (nid : Nat) (notice : Notice)
    (hactive : actor.isActive = true)
    (hrole : actor.role = "admin" ∨ actor.role = "faculty")
    (hf : s.notices.find? (fun n => n.id == nid) = some notice)
    (hauth : actor.role = "admin" ∨ notice.author = actor.id) :
    ∃ s', deleteNoticeRoute s actor nid = DeleteNoticeResult.ok s' ∧
      (∀ c : Comment, c ∈ s'.comments ↔ (c ∈ s.comments ∧ c.notice ≠ nid)) ∧
      (∀ t : Notification, t ∈ s'.notifications ↔
        (t ∈ s.notifications ∧ t.relatedNotice ≠ some nid)) ∧
      (∀ x : Notice, x ∈ s'.notices ↔ (x ∈ s.notices ∧ x.id ≠ nid)) ∧
      s'.users = s.users := by
  have hact : (!actor.isActive) = false := by simp [hactive]
  have hmid : (!(actor.role == "admin") && !(actor.role == "faculty")) = false := by
    rcases hrole with h | h <;> simp [h]
  have hgate : (!(notice.author == actor.id) && !(actor.role == "admin")) = false := by
    rcases hauth with h | h <;> simp [h]
  refine ⟨{ s with
      comments := s.comments.filter (fun c => !(c.notice == nid)),
      notifications := s.notifications.filter (fun t => !(t.relatedNotice == some nid)),
      notices := s.notices.filter (fun n => !(n.id == nid)) }, ?_, ?_, ?_, ?_, rfl⟩
  · simp only [deleteNoticeRoute, hact, Bool.false_eq_true, if_false, hmid, hf, hgate]
  · intro c
    simp [List.mem_filter]
  · intro t
    simp [List.mem_filter]
  · intro x
    simp [List.mem_filter]

/-- Witness for C9: the admin deletes the fixture notice carrying one
comment thread and one related notification. -/
theorem deleteNotice_cascades_witness :
    ∃ s', deleteNoticeRoute sThread uAdm 10 = DeleteNoticeResult.ok s' ∧
      (∀ c : Comment, c ∈ s'.comments ↔ (c ∈ sThread.comments ∧ c.notice ≠ 10)) ∧
      (∀ t : Notification, t ∈ s'.notifications ↔
        (t ∈ sThread.notifications ∧ t.relatedNotice ≠ some 10)) ∧
      (∀ x : Notice, x ∈ s'.notices ↔ (x ∈ sThread.notices ∧ x.id ≠ 10)) ∧
      s'.users = sThread.users :=
  deleteNotice_cascades sThread uAdm 10 nOne (by decide) (Or.inl (by decide))
    (by decide) (Or.inl (by decide))

/-- C10: both per-notification operations look the notification up scoped to
the requesting user's id, so a user invoking them on a notification whose
recipient is someone else gets the not-found outcome and the store — in
particular that notification — is returned unchanged. -/
theorem notification_ops_scoped_to_recipient
    (s : Store) (uid now : Nat) (t : Notification)
    (hnd : (s.notifications.map (fun x => x.id)).Nodup)
    (ht : t ∈ s.notifications)
    (hne : t.user ≠ uid) :
    markNotificationRead s uid t.id now = NotificationOpResult.notFound s ∧
    deleteNotificationRoute s uid t.id = NotificationOpResult.notFound s := by
  have hnone : s.notifications.find? (fun x => x.id == t.id && x.user == uid) = none := by
    refine List.find?_eq_none.mpr ?_
    intro x hx hpred
    simp only [Bool.and_eq_true, beq_iff_eq] at hpred
    have hxt : x = t := List.inj_on_of_nodup_map hnd hx ht hpred.1
    exact hne (hxt ▸ hpred.2)
  constructor
  · simp only [markNotificationRead, hnone]
  · simp only [deleteNotificationRoute, hnone]

/-- Witness for C10: user 2 targets notification 5, whose recipient is
user 3, in the thread fixture. -/
theorem notification_ops_scoped_to_recipient_witness :
    markNotificationRead sThread 2
        ({ id := 5, user := 3, ntype := "comment", message := "m",
           relatedNotice := some 10, relatedComment := some 1,
           isRead := false, readAt := none } : Notification).id 99 =
      NotificationOpResult.notFound sThread ∧
    deleteNotificationRoute sThread 2
        ({ id := 5, user := 3, ntype := "comment", message := "m",
           relatedNotice := some 10, relatedComment := some 1,
           isRead := false, readAt := none } : Notification).id =
      NotificationOpResult.notFound sThread :=
  notification_ops_scoped_to_recipient sThread 2 99
    { id := 5, user := 3, ntype := "comment", message := "m",
      relatedNotice := some 10, relatedComment := some 1,
      isRead := false, readAt := none }
    (by decide) (by decide) (by decide)

end SNB
